import Mathlib

/-!
Shallow embedding of the event-streaming BNPL demo (Go sources under
`src/consumer/consumer.go`, `src/producer/events/events.go`,
`src/producer/producer.go`, `src/producer/commands/commands.go`).

The consumer tails a Kinesis stream, decodes a JSON envelope discriminated
by the `event_type` field, appends every decoded record to an `events`
table, and dispatches on the discriminator: `PurchaseCompletedEvent`
re-emits a `PaymentPromiseCreatedEvent`; `PaymentPromiseCreatedEvent` and
`MemberBillCreatedEvent` insert projection rows; `PaymentCompletedEvent`
updates a bill row and pushes a websocket refresh signal.

Side effects are modelled as an explicit trace (`Effect` list) together
with an `Outcome` distinguishing normal return from a Go panic, and
database mutation semantics are given as pure functions on row lists.
-/

namespace BnplDemo

/-! ## JSON value model

A decoded JSON value as Go's `encoding/json` produces it when unmarshalling
into `map[string]interface{}` (strings, numbers, booleans, null; nested
objects/arrays are not needed by any event variant, so a record payload is
either "malformed" — generic unmarshal fails — or a flat object). -/

inductive JValue where
  | jstr (s : String)
  | jint (n : Int)
  | jbool (b : Bool)
  | jnull
deriving DecidableEq, Repr

abbrev Fields := List (String × JValue)

/-- Go JSON object semantics: for a duplicated key the last value wins. -/
def getField (fs : Fields) (k : String) : Option JValue :=
  ((fs.filter (fun kv => kv.fst = k)).getLast?).map (fun kv => kv.snd)

/-- A raw Kinesis record payload: either bytes on which the generic
`json.Unmarshal` into `map[string]interface{}` fails, or the decoded flat
object. -/
inductive RecordData where
  | malformed (raw : String)
  | obj (fields : Fields)
deriving DecidableEq, Repr

/-! ## Event structs (`src/producer/events/events.go`) -/

structure PurchaseCompletedEvent where
  eventType : String
  orderID : String
  userID : String
  amount : Int
deriving DecidableEq, Repr

structure PaymentPromiseCreatedEvent where
  eventType : String
  promiseID : String
  orderID : String
  userID : String
  dueDate : String
  paymentMode : String
deriving DecidableEq, Repr

structure MemberBillCreatedEvent where
  eventType : String
  billID : String
  promiseID : String
  userID : String
  amount : Int
  issuedDate : String
deriving DecidableEq, Repr

structure PaymentCompletedEvent where
  eventType : String
  billID : String
  userID : String
  amount : Int
  paidDate : String
deriving DecidableEq, Repr

/-! ## Codec

`encodeX` models `json.Marshal` of the struct (all tagged fields, struct
order). `decodeX` models `json.Unmarshal` of the same bytes into the typed
struct: a missing key or a JSON `null` leaves the zero value, a present
value of the wrong type is an unmarshal error. -/

def getStr (fs : Fields) (k : String) : Except Unit String :=
  match getField fs k with
  | none => .ok ""
  | some (.jstr s) => .ok s
  | some .jnull => .ok ""
  | some _ => .error ()

def getInt (fs : Fields) (k : String) : Except Unit Int :=
  match getField fs k with
  | none => .ok 0
  | some (.jint n) => .ok n
  | some .jnull => .ok 0
  | some _ => .error ()

def encodePurchaseCompleted (e : PurchaseCompletedEvent) : Fields :=
  [("event_type", .jstr e.eventType), ("order_id", .jstr e.orderID),
   ("user_id", .jstr e.userID), ("amount", .jint e.amount)]

def decodePurchaseCompleted (fs : Fields) : Except Unit PurchaseCompletedEvent := do
  let et ← getStr fs "event_type"
  let oid ← getStr fs "order_id"
  let uid ← getStr fs "user_id"
  let amt ← getInt fs "amount"
  .ok { eventType := et, orderID := oid, userID := uid, amount := amt }

def encodePaymentPromiseCreated (e : PaymentPromiseCreatedEvent) : Fields :=
  [("event_type", .jstr e.eventType), ("promise_id", .jstr e.promiseID),
   ("order_id", .jstr e.orderID), ("user_id", .jstr e.userID),
   ("due_date", .jstr e.dueDate), ("payment_mode", .jstr e.paymentMode)]

def decodePaymentPromiseCreated (fs : Fields) : Except Unit PaymentPromiseCreatedEvent := do
  let et ← getStr fs "event_type"
  let pid ← getStr fs "promise_id"
  let oid ← getStr fs "order_id"
  let uid ← getStr fs "user_id"
  let dd ← getStr fs "due_date"
  let pm ← getStr fs "payment_mode"
  .ok { eventType := et, promiseID := pid, orderID := oid, userID := uid,
        dueDate := dd, paymentMode := pm }

def encodeMemberBillCreated (e : MemberBillCreatedEvent) : Fields :=
  [("event_type", .jstr e.eventType), ("bill_id", .jstr e.billID),
   ("promise_id", .jstr e.promiseID), ("user_id", .jstr e.userID),
   ("amount", .jint e.amount), ("issued_date", .jstr e.issuedDate)]

def decodeMemberBillCreated (fs : Fields) : Except Unit MemberBillCreatedEvent := do
  let et ← getStr fs "event_type"
  let bid ← getStr fs "bill_id"
  let pid ← getStr fs "promise_id"
  let uid ← getStr fs "user_id"
  let amt ← getInt fs "amount"
  let idate ← getStr fs "issued_date"
  .ok { eventType := et, billID := bid, promiseID := pid, userID := uid,
        amount := amt, issuedDate := idate }

def encodePaymentCompleted (e : PaymentCompletedEvent) : Fields :=
  [("event_type", .jstr e.eventType), ("bill_id", .jstr e.billID),
   ("user_id", .jstr e.userID), ("amount", .jint e.amount),
   ("paid_date", .jstr e.paidDate)]

def decodePaymentCompleted (fs : Fields) : Except Unit PaymentCompletedEvent := do
  let et ← getStr fs "event_type"
  let bid ← getStr fs "bill_id"
  let uid ← getStr fs "user_id"
  let amt ← getInt fs "amount"
  let pdate ← getStr fs "paid_date"
  .ok { eventType := et, billID := bid, userID := uid, amount := amt,
        paidDate := pdate }

/-! ## Date formatting

Go computes `time.Now().Add(30 * 24 * time.Hour).Format("2006-01-02")`.
Time instants are modelled as seconds since the Unix epoch; `Format`
renders the civil date of the instant, computed with the standard
days-to-civil-date algorithm, zero-padded ISO `YYYY-MM-DD`. -/

def civilFromDays (days : Nat) : Nat × Nat × Nat :=
  let z := days + 719468
  let era := z / 146097
  let doe := z % 146097
  let yoe := (doe - doe / 1460 + doe / 36524 - doe / 146096) / 365
  let y := yoe + era * 400
  let doy := doe - (365 * yoe + yoe / 4 - yoe / 100)
  let mp := (5 * doy + 2) / 153
  let d := doy - (153 * mp + 2) / 5 + 1
  let m := if mp < 10 then mp + 3 else mp - 9
  (if m ≤ 2 then y + 1 else y, m, d)

def pad2 (n : Nat) : String :=
  if n < 10 then "0" ++ toString n else toString n

def pad4 (n : Nat) : String :=
  if n < 10 then "000" ++ toString n
  else if n < 100 then "00" ++ toString n
  else if n < 1000 then "0" ++ toString n
  else toString n

def renderYMD : Nat × Nat × Nat → String
  | (y, m, d) => pad4 y ++ "-" ++ pad2 m ++ "-" ++ pad2 d

/-- ISO `YYYY-MM-DD` for a day count since the Unix epoch. -/
def isoOfDays (days : Nat) : String := renderYMD (civilFromDays days)

/-- `t.Format("2006-01-02")` for an epoch-seconds instant `t`. -/
def goFormatDate (t : Nat) : String := isoOfDays (t / 86400)

/-! ## Projection rows and database mutation semantics -/

structure PromiseRow where
  id : String
  orderID : String
  userID : String
  amount : Int
  dueDate : String
  paymentMode : String
deriving DecidableEq, Repr

structure BillRow where
  id : String
  promiseID : String
  userID : String
  amount : Int
  status : String
  issuedDate : String
  paidDate : Option String
deriving DecidableEq, Repr

/-- `UPDATE member_bills SET status = 'paid', paid_date = ? WHERE id = ?`
(`updateMemberBillStatus` in `src/consumer/consumer.go`): every row whose
`id` matches the payment's `bill_id` gets status `paid` and the event's
paid date; with no matching row the statement affects nothing and does not
error. -/
def updateMemberBillStatus (payment : PaymentCompletedEvent)
    (bills : List BillRow) : List BillRow :=
  bills.map (fun r =>
    if r.id = payment.billID then
      { r with status := "paid", paidDate := some payment.paidDate }
    else r)

/-! ## Side-effect trace of the consumer -/

inductive Effect where
  | logMsg (msg : String)
  | dbInsertEvent (id : String) (eventType : String) (raw : Fields)
  | emit (ev : PaymentPromiseCreatedEvent)
  | dbInsertPromise (row : PromiseRow)
  | dbInsertBill (row : BillRow)
  | dbUpdateBillPaid (billID : String) (paidDate : String)
  | wsSend (msg : String)
deriving DecidableEq, Repr

/-- Whether a Go call returned normally or panicked (an unrecovered panic
terminates the whole process). -/
inductive Outcome where
  | ok
  | panicked
deriving DecidableEq, Repr

/-- Which of the consumer's fallible external calls fail during one
record's processing (`db.Exec` errors, Kinesis `PutRecord` error,
websocket write error). -/
structure Env where
  appendFails : Bool
  emitFails : Bool
  promiseInsertFails : Bool
  billInsertFails : Bool
  billUpdateFails : Bool
  wsWriteFails : Bool
deriving DecidableEq, Repr

def Env.allOk : Env :=
  { appendFails := false, emitFails := false, promiseInsertFails := false,
    billInsertFails := false, billUpdateFails := false, wsWriteFails := false }

/-- Inputs of one `processEvent` call: the record, the wall clock
(epoch seconds) read by `time.Now()`, the two values `uuid.New().String()`
produces in this call (events-table row id, then promise id), and the
failure behaviour of the external calls. -/
structure PEInput where
  record : RecordData
  now : Nat
  freshEventId : String
  freshPromiseId : String
  env : Env
deriving Repr

/-- `saveEventToDB`: attempts the `INSERT INTO events` with a fresh id;
a failure is logged, not propagated. -/
def saveEventToDB (freshId : String) (raw : Fields) (eventType : String)
    (fails : Bool) : List Effect :=
  [.dbInsertEvent freshId eventType raw] ++
    (if fails then [.logMsg "Failed to save event to DB"] else [])

/-- `savePromiseToDB`: `INSERT INTO payment_promises` with the hard-coded
placeholder amount 3500 (the event carries no amount field). -/
def savePromiseToDB (promise : PaymentPromiseCreatedEvent)
    (fails : Bool) : List Effect :=
  [.dbInsertPromise
      { id := promise.promiseID, orderID := promise.orderID,
        userID := promise.userID, amount := 3500,
        dueDate := promise.dueDate, paymentMode := promise.paymentMode }] ++
    (if fails then [.logMsg "Failed to save promise to DB"] else [])

/-- `saveMemberBillToDB`: `INSERT INTO member_bills` with status `unpaid`;
the insert names no `paid_date` column, so the row's paid date is NULL. -/
def saveMemberBillToDB (bill : MemberBillCreatedEvent)
    (fails : Bool) : List Effect :=
  [.dbInsertBill
      { id := bill.billID, promiseID := bill.promiseID, userID := bill.userID,
        amount := bill.amount, status := "unpaid",
        issuedDate := bill.issuedDate, paidDate := none }] ++
    (if fails then [.logMsg "Failed to save member bill to DB"] else [])

/-- The `switch genericEvent["event_type"]` body of `processEvent`, reached
after the events-table append. Go's `switch` compares the discriminator
against the four literals in order and has no `default` case. -/
def choreography (et : String) (fields : Fields) (inp : PEInput) : List Effect :=
  if et = "PurchaseCompletedEvent" then
    match decodePurchaseCompleted fields with
    | .error _ => [.logMsg "Failed to unmarshal purchase event"]
    | .ok purchaseEvent =>
      let promiseEvent : PaymentPromiseCreatedEvent :=
        { eventType := "PaymentPromiseCreatedEvent",
          promiseID := inp.freshPromiseId,
          orderID := purchaseEvent.orderID,
          userID := purchaseEvent.userID,
          dueDate := goFormatDate (inp.now + 30 * 24 * 3600),
          paymentMode := "月まとめ払い" }
      [.emit promiseEvent] ++
        (if inp.env.emitFails then [.logMsg "Failed to emit payment promise event"] else [])
  else if et = "PaymentPromiseCreatedEvent" then
    match decodePaymentPromiseCreated fields with
    | .error _ => [.logMsg "Failed to unmarshal promise event"]
    | .ok promiseEvent =>
      savePromiseToDB promiseEvent inp.env.promiseInsertFails ++
        [.logMsg "Payment promise projection created"]
  else if et = "MemberBillCreatedEvent" then
    match decodeMemberBillCreated fields with
    | .error _ => [.logMsg "Failed to unmarshal bill event"]
    | .ok billEvent =>
      saveMemberBillToDB billEvent inp.env.billInsertFails ++
        [.logMsg "Member bill projection created"]
  else if et = "PaymentCompletedEvent" then
    match decodePaymentCompleted fields with
    | .error _ => [.logMsg "Failed to unmarshal payment event"]
    | .ok paymentEvent =>
      [.dbUpdateBillPaid paymentEvent.billID paymentEvent.paidDate] ++
        (if inp.env.billUpdateFails then [.logMsg "Failed to update member bill status"] else []) ++
        [.logMsg "Member bill status updated to paid"] ++
        [.wsSend "update"] ++
        (if inp.env.wsWriteFails then [.logMsg "Failed to write to WebSocket"] else [])
  else []

/-- `processEvent` (`src/consumer/consumer.go`): logs the raw record, runs
the generic unmarshal, evaluates `genericEvent["event_type"].(string)` —
an unchecked Go type assertion that panics when the field is absent or not
a string — then appends to the events table and dispatches. -/
def processEvent (inp : PEInput) : List Effect × Outcome :=
  let received := Effect.logMsg "Received event"
  match inp.record with
  | .malformed _ =>
      ([received, .logMsg "Failed to unmarshal generic event"], .ok)
  | .obj fields =>
      match getField fields "event_type" with
      | some (.jstr et) =>
          (received ::
            (saveEventToDB inp.freshEventId fields et inp.env.appendFails ++
              choreography et fields inp), .ok)
      | _ => ([received], .panicked)

/-! ## StreamReader loop (`main` in `src/consumer/consumer.go`) -/

/-- One `GetRecords` response: an error, or a batch of records together
with the `NextShardIterator` (nil when the stream is closed). -/
inductive PollResult where
  | err (msg : String)
  | ok (records : List RecordData) (next : Option String)
deriving Repr

/-- How a run of the consumer process ends. `fatal` is `log.Fatalf`
(immediate process exit), `cleanExit` is the `break` on a nil shard
iterator, `crashed` is an unrecovered panic inside `processEvent`,
`outOfPolls` marks the modelling artifact of a finite poll script running
dry while the real loop would continue. -/
inductive LoopOutcome where
  | fatal (msg : String)
  | cleanExit
  | crashed
  | outOfPolls
deriving DecidableEq, Repr

/-- Ambient inputs shared by every `processEvent` call of one run: the
wall clock, an inexhaustible supply of fresh uuids, and the external-call
failure flags. -/
structure LoopEnv where
  now : Nat
  uuid : Nat → String
  env : Env

/-- Sequential processing of one batch (`for _, record := range ...`);
record number `k` of the run consumes uuids `2k` and `2k+1`. An
unrecovered panic aborts the whole process. -/
def runBatch (lenv : LoopEnv) : Nat → List RecordData → List Effect × Outcome × Nat
  | ctr, [] => ([], .ok, ctr)
  | ctr, r :: rs =>
      let step := processEvent
        { record := r, now := lenv.now, freshEventId := lenv.uuid ctr,
          freshPromiseId := lenv.uuid (ctr + 1), env := lenv.env }
      match step.2 with
      | .panicked => (step.1, .panicked, ctr)
      | .ok =>
          let rest := runBatch lenv (ctr + 2) rs
          (step.1 ++ rest.1, rest.2.1, rest.2.2)

/-- The polling loop: process the batch, then advance to the returned
cursor; a nil cursor breaks out of the loop, a poll error is
`log.Fatalf` and is never retried. -/
def runLoop (lenv : LoopEnv) : Nat → List PollResult → List Effect × LoopOutcome
  | _, [] => ([], .outOfPolls)
  | _, .err _ :: _ => ([], .fatal "failed to get records")
  | ctr, .ok records next :: rest =>
      let batch := runBatch lenv ctr records
      match batch.2.1 with
      | .panicked => (batch.1, .crashed)
      | .ok =>
          match next with
          | none => (batch.1 ++ [.logMsg "Shard iterator is nil. Exiting."], .cleanExit)
          | some _ =>
              let cont := runLoop lenv batch.2.2 rest
              (batch.1 ++ cont.1, cont.2)

/-- The stream-facing world of one run: shard discovery, iterator
acquisition, and the successive `GetRecords` responses. -/
structure StreamEnv where
  describeShards : Except String (List String)
  shardIterator : Except String String
  polls : List PollResult

/-- `main` of the consumer: discover shards (fatal on error or on an empty
shard list), take the first shard, acquire a `Latest` iterator (fatal on
error), then run the polling loop. -/
def runConsumer (senv : StreamEnv) (lenv : LoopEnv) : List Effect × LoopOutcome :=
  match senv.describeShards with
  | .error _ => ([], .fatal "failed to get shards")
  | .ok shards =>
      if shards.isEmpty then ([], .fatal "no shards found")
      else
        match senv.shardIterator with
        | .error _ => ([], .fatal "failed to get shard iterator")
        | .ok _ => runLoop lenv 0 senv.polls

/-! ## Command intake (`POST /purchase` handler in the producer `main`) -/

structure PurchaseCommand where
  userID : String
  productID : String
  productName : String
  amount : Int
deriving DecidableEq, Repr

/-- The `POST /purchase` handler body after a successful JSON bind: order
id is the literal `"order-"` prefix glued to the command's user id. -/
def purchaseHandler (cmd : PurchaseCommand) : PurchaseCompletedEvent :=
  { eventType := "PurchaseCompletedEvent",
    orderID := "order-" ++ cmd.userID,
    userID := cmd.userID,
    amount := cmd.amount }

/-! ## Effect classifiers used by the statements -/

def isAppend : Effect → Bool
  | .dbInsertEvent _ _ _ => true
  | _ => false

def isEmit : Effect → Bool
  | .emit _ => true
  | _ => false

/-- Projection-store writes: inserts into `payment_promises` or
`member_bills`, or the bill-status update. -/
def isProjectionWrite : Effect → Bool
  | .dbInsertPromise _ => true
  | .dbInsertBill _ => true
  | .dbUpdateBillPaid _ _ => true
  | _ => false

/-- Choreography effects in the sense of the spec: projection writes,
event emissions, and notifier signals (logs and the audit append are
excluded). -/
def isChoreoEffect (e : Effect) : Bool :=
  isProjectionWrite e || isEmit e ||
    (match e with | .wsSend _ => true | _ => false)

/-- The records on which the code reaches the websocket write: a flat
object whose `event_type` is the string `"PaymentCompletedEvent"` and
whose typed unmarshal succeeds. -/
def sendsRefresh : RecordData → Bool
  | .malformed _ => false
  | .obj fields =>
      match getField fields "event_type" with
      | some (.jstr et) =>
          et = "PaymentCompletedEvent" &&
            (match decodePaymentCompleted fields with
             | .ok _ => true
             | .error _ => false)
      | _ => false

/-! ## Theorems -/

/-- C7: for each of the four event variants, encoding a value to the JSON
wire envelope and decoding it back yields a value equal to the original in
every declared field, including the discriminator. -/
theorem codec_roundtrip_all_variants :
    (∀ e : PurchaseCompletedEvent,
      decodePurchaseCompleted (encodePurchaseCompleted e) = .ok e) ∧
    (∀ e : PaymentPromiseCreatedEvent,
      decodePaymentPromiseCreated (encodePaymentPromiseCreated e) = .ok e) ∧
    (∀ e : MemberBillCreatedEvent,
      decodeMemberBillCreated (encodeMemberBillCreated e) = .ok e) ∧
    (∀ e : PaymentCompletedEvent,
      decodePaymentCompleted (encodePaymentCompleted e) = .ok e) := by
  refine ⟨fun e => ?_, fun e => ?_, fun e => ?_, fun e => ?_⟩ <;> rfl

/-- C10: the `POST /purchase` handler builds the emitted event's order id
as the string `"order-"` concatenated with the command's user id, so two
purchase commands with the same user id yield identical order ids. -/
theorem purchase_orderID_from_userID :
    (∀ cmd : PurchaseCommand,
      (purchaseHandler cmd).orderID = "order-" ++ cmd.userID) ∧
    (∀ c1 c2 : PurchaseCommand, c1.userID = c2.userID →
      (purchaseHandler c1).orderID = (purchaseHandler c2).orderID) := by
  refine ⟨fun cmd => rfl, fun c1 c2 h => ?_⟩
  simp [purchaseHandler, h]

/-- Witness for C10 at two concrete commands sharing user `"u1"`. -/
theorem purchase_orderID_from_userID_witness :
    (purchaseHandler ⟨"u1", "prod-1", "Widget", 3500⟩).orderID = "order-u1" ∧
    (purchaseHandler ⟨"u1", "prod-1", "Widget", 3500⟩).orderID
      = (purchaseHandler ⟨"u1", "prod-2", "Gadget", 9800⟩).orderID :=
  ⟨purchase_orderID_from_userID.1 ⟨"u1", "prod-1", "Widget", 3500⟩,
   purchase_orderID_from_userID.2 ⟨"u1", "prod-1", "Widget", 3500⟩
     ⟨"u1", "prod-2", "Gadget", 9800⟩ rfl⟩

/-- C3: the bill-status update sets a matching row's status to `paid` with
the event's paid date, is idempotent under duplicate delivery of the same
event, and is a silent no-op (every row unchanged) when no row's id
matches the payment's bill id. -/
theorem updateBillPaid_behaviour :
    ∀ (payment : PaymentCompletedEvent) (bills : List BillRow),
      (∀ r ∈ bills, r.id = payment.billID →
        { r with status := "paid", paidDate := some payment.paidDate }
          ∈ updateMemberBillStatus payment bills) ∧
      (∀ r ∈ bills, r.id ≠ payment.billID →
        r ∈ updateMemberBillStatus payment bills) ∧
      updateMemberBillStatus payment (updateMemberBillStatus payment bills)
        = updateMemberBillStatus payment bills ∧
      ((∀ r ∈ bills, r.id ≠ payment.billID) →
        updateMemberBillStatus payment bills = bills) := by
  intro payment bills
  refine ⟨?_, ?_, ?_, ?_⟩
  · intro r hr hid
    have h := List.mem_map_of_mem
      (f := fun r => if r.id = payment.billID then
        { r with status := "paid", paidDate := some payment.paidDate } else r) hr
    simpa [updateMemberBillStatus, hid] using h
  · intro r hr hid
    have h := List.mem_map_of_mem
      (f := fun r => if r.id = payment.billID then
        { r with status := "paid", paidDate := some payment.paidDate } else r) hr
    simpa [updateMemberBillStatus, hid] using h
  · unfold updateMemberBillStatus
    rw [List.map_map]
    apply List.map_congr_left
    intro r _
    by_cases h : r.id = payment.billID <;> simp [h]
  · intro hnone
    unfold updateMemberBillStatus
    conv_rhs => rw [← List.map_id bills]
    apply List.map_congr_left
    intro r hr
    simp [hnone r hr]

/-- Witness for C3: one unpaid bill `b1`; paying it marks it paid, paying
twice changes nothing further, and a payment for absent id `zzz` leaves
the table unchanged. -/
theorem updateBillPaid_behaviour_witness :
    ({ id := "b1", promiseID := "p1", userID := "u1", amount := 3500,
       status := "paid", issuedDate := "2024-01-31",
       paidDate := some "2024-02-05" : BillRow }
      ∈ updateMemberBillStatus
          ⟨"PaymentCompletedEvent", "b1", "u1", 3500, "2024-02-05"⟩
          [⟨"b1", "p1", "u1", 3500, "unpaid", "2024-01-31", none⟩]) ∧
    (updateMemberBillStatus
        ⟨"PaymentCompletedEvent", "b1", "u1", 3500, "2024-02-05"⟩
        (updateMemberBillStatus
          ⟨"PaymentCompletedEvent", "b1", "u1", 3500, "2024-02-05"⟩
          [⟨"b1", "p1", "u1", 3500, "unpaid", "2024-01-31", none⟩])
      = updateMemberBillStatus
          ⟨"PaymentCompletedEvent", "b1", "u1", 3500, "2024-02-05"⟩
          [⟨"b1", "p1", "u1", 3500, "unpaid", "2024-01-31", none⟩]) ∧
    (updateMemberBillStatus
        ⟨"PaymentCompletedEvent", "zzz", "u1", 3500, "2024-02-05"⟩
        [⟨"b1", "p1", "u1", 3500, "unpaid", "2024-01-31", none⟩]
      = [⟨"b1", "p1", "u1", 3500, "unpaid", "2024-01-31", none⟩]) := by
  refine ⟨?_, ?_, ?_⟩
  · exact (updateBillPaid_behaviour
      ⟨"PaymentCompletedEvent", "b1", "u1", 3500, "2024-02-05"⟩
      [⟨"b1", "p1", "u1", 3500, "unpaid", "2024-01-31", none⟩]).1
      ⟨"b1", "p1", "u1", 3500, "unpaid", "2024-01-31", none⟩ (by simp) rfl
  · exact (updateBillPaid_behaviour
      ⟨"PaymentCompletedEvent", "b1", "u1", 3500, "2024-02-05"⟩
      [⟨"b1", "p1", "u1", 3500, "unpaid", "2024-01-31", none⟩]).2.2.1
  · exact (updateBillPaid_behaviour
      ⟨"PaymentCompletedEvent", "zzz", "u1", 3500, "2024-02-05"⟩
      [⟨"b1", "p1", "u1", 3500, "unpaid", "2024-01-31", none⟩]).2.2.2
      (by intro r hr; simp at hr; subst hr; decide)

/-- C5: processing a `PaymentPromiseCreatedEvent` record performs exactly
one projection write — an insert into `payment_promises` whose promise,
order and user identifiers come from the event and whose amount is the
hard-coded placeholder 3500, independent of any purchase amount. -/
theorem promise_branch_inserts_one_row :
    ∀ (inp : PEInput) (fields : Fields) (ev : PaymentPromiseCreatedEvent),
      inp.record = .obj fields →
      getField fields "event_type" = some (.jstr "PaymentPromiseCreatedEvent") →
      decodePaymentPromiseCreated fields = .ok ev →
      (processEvent inp).1.filter isProjectionWrite
        = [.dbInsertPromise
            { id := ev.promiseID, orderID := ev.orderID, userID := ev.userID,
              amount := 3500, dueDate := ev.dueDate,
              paymentMode := ev.paymentMode }] ∧
      (processEvent inp).1.filter isEmit = [] ∧
      (processEvent inp).2 = .ok := by
  intro inp fields ev hrec hdisc hdec
  obtain ⟨rec, now, fid, pid, env⟩ := inp
  obtain ⟨af, ef, pf, bf, uf, wf⟩ := env
  simp only at hrec
  subst hrec
  cases af <;> cases pf <;>
    simp [processEvent, hdisc, choreography, hdec, saveEventToDB,
          savePromiseToDB, isProjectionWrite, isEmit]

/-- Witness for C5 at a concrete promise event. -/
theorem promise_branch_inserts_one_row_witness :
    (processEvent
      { record := .obj (encodePaymentPromiseCreated
          ⟨"PaymentPromiseCreatedEvent", "pr1", "o1", "u1", "2024-01-31", "月まとめ払い"⟩),
        now := 0, freshEventId := "uuid-0", freshPromiseId := "uuid-1",
        env := Env.allOk }).1.filter isProjectionWrite
      = [.dbInsertPromise
          { id := "pr1", orderID := "o1", userID := "u1", amount := 3500,
            dueDate := "2024-01-31", paymentMode := "月まとめ払い" }] := by
  exact (promise_branch_inserts_one_row
    { record := .obj (encodePaymentPromiseCreated
        ⟨"PaymentPromiseCreatedEvent", "pr1", "o1", "u1", "2024-01-31", "月まとめ払い"⟩),
      now := 0, freshEventId := "uuid-0", freshPromiseId := "uuid-1",
      env := Env.allOk }
    (encodePaymentPromiseCreated
      ⟨"PaymentPromiseCreatedEvent", "pr1", "o1", "u1", "2024-01-31", "月まとめ払い"⟩)
    ⟨"PaymentPromiseCreatedEvent", "pr1", "o1", "u1", "2024-01-31", "月まとめ払い"⟩
    rfl rfl rfl).1

/-- C9: processing a `MemberBillCreatedEvent` record performs exactly one
projection write — an insert into `member_bills` whose bill id is taken
from the event (not generated), with the event's promise id, user id and
amount, status `unpaid`, and no paid date. -/
theorem bill_branch_inserts_one_row :
    ∀ (inp : PEInput) (fields : Fields) (ev : MemberBillCreatedEvent),
      inp.record = .obj fields →
      getField fields "event_type" = some (.jstr "MemberBillCreatedEvent") →
      decodeMemberBillCreated fields = .ok ev →
      (processEvent inp).1.filter isProjectionWrite
        = [.dbInsertBill
            { id := ev.billID, promiseID := ev.promiseID, userID := ev.userID,
              amount := ev.amount, status := "unpaid",
              issuedDate := ev.issuedDate, paidDate := none }] ∧
      (processEvent inp).1.filter isEmit = [] ∧
      (processEvent inp).2 = .ok := by
  intro inp fields ev hrec hdisc hdec
  obtain ⟨rec, now, fid, pid, env⟩ := inp
  obtain ⟨af, ef, pf, bf, uf, wf⟩ := env
  simp only at hrec
  subst hrec
  cases af <;> cases bf <;>
    simp [processEvent, hdisc, choreography, hdec, saveEventToDB,
          saveMemberBillToDB, isProjectionWrite, isEmit]

/-- Witness for C9 at a concrete bill event. -/
theorem bill_branch_inserts_one_row_witness :
    (processEvent
      { record := .obj (encodeMemberBillCreated
          ⟨"MemberBillCreatedEvent", "b1", "pr1", "u1", 3500, "2024-01-31"⟩),
        now := 0, freshEventId := "uuid-0", freshPromiseId := "uuid-1",
        env := Env.allOk }).1.filter isProjectionWrite
      = [.dbInsertBill
          { id := "b1", promiseID := "pr1", userID := "u1", amount := 3500,
            status := "unpaid", issuedDate := "2024-01-31",
            paidDate := none }] := by
  exact (bill_branch_inserts_one_row
    { record := .obj (encodeMemberBillCreated
        ⟨"MemberBillCreatedEvent", "b1", "pr1", "u1", 3500, "2024-01-31"⟩),
      now := 0, freshEventId := "uuid-0", freshPromiseId := "uuid-1",
      env := Env.allOk }
    (encodeMemberBillCreated
      ⟨"MemberBillCreatedEvent", "b1", "pr1", "u1", 3500, "2024-01-31"⟩)
    ⟨"MemberBillCreatedEvent", "b1", "pr1", "u1", 3500, "2024-01-31"⟩
    rfl rfl rfl).1

/-- C1 (code bug): a record that is valid JSON but lacks a string
`event_type` — here `\x7b"amount": 5\x7d` — makes `processEvent` panic at the
unchecked type assertion `genericEvent["event_type"].(string)` instead of
logging and dropping the record, and the crash prevents a subsequent valid
`MemberBillCreatedEvent` record in the same batch from being processed
(no projection write happens). -/
theorem missing_discriminator_crashes_pipeline :
    (processEvent
      { record := .obj [("amount", .jint 5)], now := 0,
        freshEventId := "uuid-0", freshPromiseId := "uuid-1",
        env := Env.allOk }).2 = .panicked ∧
    (runLoop
      { now := 0, uuid := fun n => "uuid-" ++ toString n, env := Env.allOk } 0
      [.ok [RecordData.obj [("amount", .jint 5)],
            RecordData.obj (encodeMemberBillCreated
              ⟨"MemberBillCreatedEvent", "b1", "pr1", "u1", 3500, "2024-01-31"⟩)]
        none]).2 = .crashed ∧
    (runLoop
      { now := 0, uuid := fun n => "uuid-" ++ toString n, env := Env.allOk } 0
      [.ok [RecordData.obj [("amount", .jint 5)],
            RecordData.obj (encodeMemberBillCreated
              ⟨"MemberBillCreatedEvent", "b1", "pr1", "u1", 3500, "2024-01-31"⟩)]
        none]).1.filter isProjectionWrite = [] := by
  refine ⟨rfl, rfl, rfl⟩

/-- C2: processing a valid `PurchaseCompletedEvent` at wall-clock instant
`now` emits exactly one `PaymentPromiseCreatedEvent` carrying the
purchase's order and user ids, the freshly generated promise uuid, due
date equal to the ISO `YYYY-MM-DD` rendering of `now` plus 30 days, and
the single hard-coded payment mode; the branch performs no projection
write. -/
theorem purchase_branch_emits_one_promise :
    ∀ (inp : PEInput) (fields : Fields) (pe : PurchaseCompletedEvent),
      inp.record = .obj fields →
      getField fields "event_type" = some (.jstr "PurchaseCompletedEvent") →
      decodePurchaseCompleted fields = .ok pe →
      (processEvent inp).1.filter isEmit
        = [.emit
            { eventType := "PaymentPromiseCreatedEvent",
              promiseID := inp.freshPromiseId,
              orderID := pe.orderID, userID := pe.userID,
              dueDate := isoOfDays (inp.now / 86400 + 30),
              paymentMode := "月まとめ払い" }] ∧
      (processEvent inp).1.filter isProjectionWrite = [] ∧
      (processEvent inp).2 = .ok := by
  intro inp fields pe hrec hdisc hdec
  obtain ⟨rec, now, fid, pid, env⟩ := inp
  obtain ⟨af, ef, pf, bf, uf, wf⟩ := env
  simp only at hrec hdisc hdec ⊢
  subst hrec
  have hdiv : (now + 30 * 24 * 3600) / 86400 = now / 86400 + 30 := by omega
  cases af <;> cases ef <;>
    simp [processEvent, hdisc, choreography, hdec, saveEventToDB,
          goFormatDate, hdiv, isProjectionWrite, isEmit]

/-- Witness for C2, replaying the spec's example scenario: a purchase by
`u1` for order `o1` processed on 2024-01-01 (epoch day 19723) yields one
emitted promise with due date `2024-01-31`. -/
theorem purchase_branch_emits_one_promise_witness :
    (processEvent
      { record := .obj (encodePurchaseCompleted
          ⟨"PurchaseCompletedEvent", "o1", "u1", 3500⟩),
        now := 19723 * 86400 + 3600, freshEventId := "uuid-0",
        freshPromiseId := "uuid-1", env := Env.allOk }).1.filter isEmit
      = [.emit
          { eventType := "PaymentPromiseCreatedEvent", promiseID := "uuid-1",
            orderID := "o1", userID := "u1", dueDate := "2024-01-31",
            paymentMode := "月まとめ払い" }] := by
  have h := (purchase_branch_emits_one_promise
    { record := .obj (encodePurchaseCompleted
        ⟨"PurchaseCompletedEvent", "o1", "u1", 3500⟩),
      now := 19723 * 86400 + 3600, freshEventId := "uuid-0",
      freshPromiseId := "uuid-1", env := Env.allOk }
    (encodePurchaseCompleted ⟨"PurchaseCompletedEvent", "o1", "u1", 3500⟩)
    ⟨"PurchaseCompletedEvent", "o1", "u1", 3500⟩ rfl rfl rfl).1
  simpa using h

/-- The websocket refresh signal appears in the choreography of a branch
iff the discriminator is `PaymentCompletedEvent` and the typed unmarshal
succeeds — the code never consults the bill table before signalling. -/
theorem wsSend_mem_choreography (et : String) (fields : Fields) (inp : PEInput) :
    Effect.wsSend "update" ∈ choreography et fields inp ↔
      (et = "PaymentCompletedEvent" ∧
        ∃ pe, decodePaymentCompleted fields = .ok pe) := by
  by_cases h1 : et = "PurchaseCompletedEvent"
  · subst h1
    rcases hd : decodePurchaseCompleted fields with e | pe <;>
      cases hef : inp.env.emitFails <;>
        simp [choreography, hd, hef]
  · by_cases h2 : et = "PaymentPromiseCreatedEvent"
    · subst h2
      rcases hd : decodePaymentPromiseCreated fields with e | pe <;>
        cases hpf : inp.env.promiseInsertFails <;>
          simp [choreography, hd, hpf, savePromiseToDB]
    · by_cases h3 : et = "MemberBillCreatedEvent"
      · subst h3
        rcases hd : decodeMemberBillCreated fields with e | pe <;>
          cases hbf : inp.env.billInsertFails <;>
            simp [choreography, hd, hbf, saveMemberBillToDB]
      · by_cases h4 : et = "PaymentCompletedEvent"
        · subst h4
          rcases hd : decodePaymentCompleted fields with e | pe <;>
            cases huf : inp.env.billUpdateFails <;>
              cases hwf : inp.env.wsWriteFails <;>
                simp [choreography, hd, huf, hwf]
        · simp [choreography, h1, h2, h3, h4]

/-- C4 (amended): the refresh signal is delivered exactly when the record
is a successfully decoded `PaymentCompletedEvent` — independent of the
projection state, hence regardless of whether any bill row actually
transitions; no other branch sends it. -/
theorem refresh_iff_payment_completed_decodes :
    ∀ inp : PEInput,
      Effect.wsSend "update" ∈ (processEvent inp).1 ↔
        sendsRefresh inp.record = true := by
  intro inp
  rcases hrec : inp.record with raw | fields
  · simp [processEvent, hrec, sendsRefresh]
  · rcases hg : getField fields "event_type" with _ | v
    · simp [processEvent, hrec, hg, sendsRefresh]
    · cases v with
      | jstr et =>
          rw [show (processEvent inp).1
                = Effect.logMsg "Received event" ::
                    (saveEventToDB inp.freshEventId fields et inp.env.appendFails ++
                      choreography et fields inp) by
              simp [processEvent, hrec, hg]]
          simp only [sendsRefresh, hrec, hg]
          rw [List.mem_cons, List.mem_append]
          rcases hd : decodePaymentCompleted fields with e | pe <;>
            cases haf : inp.env.appendFails <;>
              simp [saveEventToDB, haf, wsSend_mem_choreography, hd]
      | jint n => simp [processEvent, hrec, hg, sendsRefresh]
      | jbool b => simp [processEvent, hrec, hg, sendsRefresh]
      | jnull => simp [processEvent, hrec, hg, sendsRefresh]

/-- C4 (counterexample to the claim as stated): a `PaymentCompletedEvent`
whose `bill_id` matches no bill row still triggers the websocket refresh
signal, although the update against the (empty) bill table changes
nothing — no bill transitions to paid. -/
theorem refresh_sent_with_no_bill_transition :
    Effect.wsSend "update" ∈
      (processEvent
        { record := .obj (encodePaymentCompleted
            ⟨"PaymentCompletedEvent", "b-missing", "u1", 100, "2024-01-05"⟩),
          now := 0, freshEventId := "uuid-0", freshPromiseId := "uuid-1",
          env := Env.allOk }).1 ∧
    updateMemberBillStatus
      ⟨"PaymentCompletedEvent", "b-missing", "u1", 100, "2024-01-05"⟩ []
      = [] := by
  exact ⟨by decide, rfl⟩

/-- No branch of the event-type switch writes to the events table: the
audit append happens only before the dispatch. -/
theorem choreography_no_append (et : String) (fields : Fields) (inp : PEInput) :
    (choreography et fields inp).filter isAppend = [] := by
  by_cases h1 : et = "PurchaseCompletedEvent"
  · subst h1
    rcases hd : decodePurchaseCompleted fields with e | pe <;>
      cases hef : inp.env.emitFails <;>
        simp [choreography, hd, hef, isAppend]
  · by_cases h2 : et = "PaymentPromiseCreatedEvent"
    · subst h2
      rcases hd : decodePaymentPromiseCreated fields with e | pe <;>
        cases hpf : inp.env.promiseInsertFails <;>
          simp [choreography, hd, hpf, savePromiseToDB, isAppend]
    · by_cases h3 : et = "MemberBillCreatedEvent"
      · subst h3
        rcases hd : decodeMemberBillCreated fields with e | pe <;>
          cases hbf : inp.env.billInsertFails <;>
            simp [choreography, hd, hbf, saveMemberBillToDB, isAppend]
      · by_cases h4 : et = "PaymentCompletedEvent"
        · subst h4
          rcases hd : decodePaymentCompleted fields with e | pe <;>
            cases huf : inp.env.billUpdateFails <;>
              cases hwf : inp.env.wsWriteFails <;>
                simp [choreography, hd, huf, hwf, isAppend]
        · simp [choreography, h1, h2, h3, h4]

/-- The dispatch branches never read the events-table failure flag, so the
choreography is the same whether or not the audit append failed. -/
theorem choreography_ignores_appendFails (et : String) (fields : Fields)
    (rec : RecordData) (now : Nat) (fid pid : String)
    (a b ef pf bf uf wf : Bool) :
    choreography et fields ⟨rec, now, fid, pid, ⟨a, ef, pf, bf, uf, wf⟩⟩
      = choreography et fields ⟨rec, now, fid, pid, ⟨b, ef, pf, bf, uf, wf⟩⟩ := by
  by_cases h1 : et = "PurchaseCompletedEvent"
  · subst h1
    rcases hd : decodePurchaseCompleted fields with e | pe <;> simp [choreography, hd]
  · by_cases h2 : et = "PaymentPromiseCreatedEvent"
    · subst h2
      rcases hd : decodePaymentPromiseCreated fields with e | pe <;> simp [choreography, hd]
    · by_cases h3 : et = "MemberBillCreatedEvent"
      · subst h3
        rcases hd : decodeMemberBillCreated fields with e | pe <;> simp [choreography, hd]
      · by_cases h4 : et = "PaymentCompletedEvent"
        · subst h4
          rcases hd : decodePaymentCompleted fields with e | pe <;> simp [choreography, hd]
        · simp [choreography, h1, h2, h3, h4]

/-- C6 (amended): for every record whose generic decode succeeds and whose
`event_type` field holds a string, the events-table append runs exactly
once with the fresh id, the discriminator and the raw payload, before any
choreography effect, whatever the string's value; and an append failure is
logged without aborting the record (same choreography effects, same
outcome). -/
theorem append_once_before_choreography :
    ∀ (inp : PEInput) (fields : Fields) (et : String),
      inp.record = .obj fields →
      getField fields "event_type" = some (.jstr et) →
      ((processEvent inp).1.filter isAppend
        = [.dbInsertEvent inp.freshEventId et fields]) ∧
      (((processEvent inp).1.takeWhile (fun e => !isAppend e)).filter
          isChoreoEffect = []) ∧
      (processEvent inp).2 = .ok ∧
      (Effect.logMsg "Failed to save event to DB"
        ∈ (processEvent { inp with env := { inp.env with appendFails := true } }).1) ∧
      ((processEvent { inp with
          env := { inp.env with appendFails := true } }).1.filter isChoreoEffect
        = (processEvent { inp with
            env := { inp.env with appendFails := false } }).1.filter isChoreoEffect) ∧
      (processEvent { inp with env := { inp.env with appendFails := true } }).2
        = (processEvent { inp with env := { inp.env with appendFails := false } }).2 := by
  intro inp fields et hrec hdisc
  obtain ⟨rec, now, fid, pid, ⟨af, ef, pf, bf, uf, wf⟩⟩ := inp
  simp only at hrec
  subst hrec
  refine ⟨?_, ?_, ?_, ?_, ?_, ?_⟩
  · cases af <;>
      simp [processEvent, hdisc, saveEventToDB, isAppend, choreography_no_append]
  · cases af <;>
      simp [processEvent, hdisc, saveEventToDB, List.takeWhile_cons, isAppend,
            isChoreoEffect, isProjectionWrite, isEmit]
  · simp [processEvent, hdisc]
  · simp [processEvent, hdisc, saveEventToDB]
  · simp only [processEvent, hdisc, saveEventToDB]
    rw [choreography_ignores_appendFails et fields _ now fid pid true false ef pf bf uf wf]
    simp [isChoreoEffect, isProjectionWrite, isEmit]
  · simp [processEvent, hdisc]

/-- Witness for C6 at a concrete bill record. -/
theorem append_once_before_choreography_witness :
    (processEvent
      { record := .obj (encodeMemberBillCreated
          ⟨"MemberBillCreatedEvent", "b1", "pr1", "u1", 3500, "2024-01-31"⟩),
        now := 0, freshEventId := "uuid-0", freshPromiseId := "uuid-1",
        env := Env.allOk }).1.filter isAppend
      = [.dbInsertEvent "uuid-0" "MemberBillCreatedEvent"
          (encodeMemberBillCreated
            ⟨"MemberBillCreatedEvent", "b1", "pr1", "u1", 3500, "2024-01-31"⟩)] := by
  exact (append_once_before_choreography
    { record := .obj (encodeMemberBillCreated
        ⟨"MemberBillCreatedEvent", "b1", "pr1", "u1", 3500, "2024-01-31"⟩),
      now := 0, freshEventId := "uuid-0", freshPromiseId := "uuid-1",
      env := Env.allOk }
    (encodeMemberBillCreated
      ⟨"MemberBillCreatedEvent", "b1", "pr1", "u1", 3500, "2024-01-31"⟩)
    "MemberBillCreatedEvent" rfl rfl).1

/-- C6 (counterexample to the claim as stated): the empty JSON object
passes the generic decode, yet no events-table append is performed — the
process panics at the discriminator type assertion first. -/
theorem append_skipped_on_missing_discriminator :
    (processEvent
      { record := .obj [], now := 0, freshEventId := "uuid-0",
        freshPromiseId := "uuid-1", env := Env.allOk }).1.filter isAppend
      = [] ∧
    (processEvent
      { record := .obj [], now := 0, freshEventId := "uuid-0",
        freshPromiseId := "uuid-1", env := Env.allOk }).2 = .panicked :=
  ⟨rfl, rfl⟩

/-- C8: a poll answering with a nil next cursor makes the loop exit
cleanly (provided the batch itself did not panic), while shard-discovery
failure, an empty shard list, iterator-acquisition failure, and a poll
error are each immediately fatal — a poll error is never retried, whatever
poll responses would have followed. -/
theorem stream_lifecycle_outcomes :
    (∀ (lenv : LoopEnv) (ctr : Nat) (records : List RecordData)
        (rest : List PollResult),
      (runBatch lenv ctr records).2.1 = .ok →
      (runLoop lenv ctr (.ok records none :: rest)).2 = .cleanExit) ∧
    (∀ (senv : StreamEnv) (lenv : LoopEnv) (msg : String),
      senv.describeShards = .error msg →
      (runConsumer senv lenv).2 = .fatal "failed to get shards") ∧
    (∀ (senv : StreamEnv) (lenv : LoopEnv),
      senv.describeShards = .ok [] →
      (runConsumer senv lenv).2 = .fatal "no shards found") ∧
    (∀ (senv : StreamEnv) (lenv : LoopEnv) (shards : List String)
        (msg : String),
      senv.describeShards = .ok shards → shards ≠ [] →
      senv.shardIterator = .error msg →
      (runConsumer senv lenv).2 = .fatal "failed to get shard iterator") ∧
    (∀ (lenv : LoopEnv) (ctr : Nat) (msg : String) (rest : List PollResult),
      (runLoop lenv ctr (.err msg :: rest)).2 = .fatal "failed to get records") := by
  refine ⟨?_, ?_, ?_, ?_, ?_⟩
  · intro lenv ctr records rest hbatch
    simp [runLoop, hbatch]
  · intro senv lenv msg h
    simp [runConsumer, h]
  · intro senv lenv h
    simp [runConsumer, h]
  · intro senv lenv shards msg hds hne hit
    simp [runConsumer, hds, hit, List.isEmpty_iff, hne]
  · intro lenv ctr msg rest
    simp [runLoop]

/-- Witness for C8 on concrete stream environments: an immediate
nil-cursor poll exits cleanly; a failed discovery, an empty shard list, a
failed iterator acquisition and an erroring poll are each fatal. -/
theorem stream_lifecycle_outcomes_witness :
    (runLoop { now := 0, uuid := fun n => "uuid-" ++ toString n,
               env := Env.allOk } 0 [.ok [] none]).2 = .cleanExit ∧
    (runConsumer
      { describeShards := .error "boom", shardIterator := .ok "it", polls := [] }
      { now := 0, uuid := fun n => "uuid-" ++ toString n, env := Env.allOk }).2
      = .fatal "failed to get shards" ∧
    (runConsumer
      { describeShards := .ok [], shardIterator := .ok "it", polls := [] }
      { now := 0, uuid := fun n => "uuid-" ++ toString n, env := Env.allOk }).2
      = .fatal "no shards found" ∧
    (runConsumer
      { describeShards := .ok ["shard-0"], shardIterator := .error "boom",
        polls := [] }
      { now := 0, uuid := fun n => "uuid-" ++ toString n, env := Env.allOk }).2
      = .fatal "failed to get shard iterator" ∧
    (runLoop { now := 0, uuid := fun n => "uuid-" ++ toString n,
               env := Env.allOk } 0
      [.err "boom", .ok [] (some "it")]).2 = .fatal "failed to get records" := by
  refine ⟨?_, ?_, ?_, ?_, ?_⟩
  · exact stream_lifecycle_outcomes.1
      { now := 0, uuid := fun n => "uuid-" ++ toString n, env := Env.allOk }
      0 [] [] rfl
  · exact stream_lifecycle_outcomes.2.1
      { describeShards := .error "boom", shardIterator := .ok "it", polls := [] }
      { now := 0, uuid := fun n => "uuid-" ++ toString n, env := Env.allOk }
      "boom" rfl
  · exact stream_lifecycle_outcomes.2.2.1
      { describeShards := .ok [], shardIterator := .ok "it", polls := [] }
      { now := 0, uuid := fun n => "uuid-" ++ toString n, env := Env.allOk } rfl
  · exact stream_lifecycle_outcomes.2.2.2.1
      { describeShards := .ok ["shard-0"], shardIterator := .error "boom",
        polls := [] }
      { now := 0, uuid := fun n => "uuid-" ++ toString n, env := Env.allOk }
      ["shard-0"] "boom" rfl (by simp) rfl
  · exact stream_lifecycle_outcomes.2.2.2.2
      { now := 0, uuid := fun n => "uuid-" ++ toString n, env := Env.allOk }
      0 "boom" [.ok [] (some "it")]

end BnplDemo
